import Mathlib

/-!
Shallow embedding of the search/filter/pagination state machine of
`src/src/components/pages/JobSearchPage.tsx` (nexglap/nexjobjs).

The component holds React state (`jobs`, `searching`, `loadingMore`, `error`,
`currentPage`, `hasMore`, `totalJobs`, `keyword`, `selectedProvince`,
`sidebarFilters`, `sortBy`) plus a mutable ref `filtersRef` used by the
filter-watching `useEffect`.  We model it as a record `PageState` and each
handler of the component as a state-transition function.  Asynchronous
`wpService.getJobs` calls are modelled by splitting each fetch into a
"start" transition (issuing a request, recorded in a pending list) and a
"resolve"/"reject" transition (consuming the pending request when the
promise settles), so that arbitrary event-loop interleavings of the single
threaded component are representable.
-/

namespace Nexjob

/-- Job is opaque to the search page beyond being the unit paginated over;
we keep only an identifier. -/
structure Job where
  id : Nat
deriving DecidableEq, Repr

/-- Shape of `wpService.getJobs` responses: `\x7b jobs, currentPage, hasMore, totalJobs \x7d`. -/
structure JobsResponse where
  jobs : List Job
  currentPage : Nat
  hasMore : Bool
  totalJobs : Nat
deriving DecidableEq, Repr

/-- The `sidebarFilters` state object (JobSearchPage.tsx lines 45-53): seven
multi-select facet arrays, in the declaration order of the object literal
(the order matters for `JSON.stringify`). -/
structure SidebarFilters where
  cities : List String
  jobTypes : List String
  experiences : List String
  educations : List String
  industries : List String
  workPolicies : List String
  categories : List String
deriving DecidableEq, Repr

/-- SidebarFilters with every facet empty. -/
def SidebarFilters.empty : SidebarFilters :=
  ⟨[], [], [], [], [], [], []⟩

/-- The complete Filter Set: the `currentFilters` object of the watcher
effect (keyword, selectedProvince, sortBy, sidebarFilters); the same data
is sent to `getJobs` as `\x7b search, location, sortBy, ...sidebarFilters \x7d`. -/
structure Filters where
  keyword : String
  province : String
  sortBy : String
  sidebar : SidebarFilters
deriving DecidableEq, Repr

/-- Hexadecimal digit character, uppercase (0-15). -/
def hexDigit (n : Nat) : Char :=
  if n < 10 then Char.ofNat (48 + n) else Char.ofNat (55 + n)

/-- Two-digit uppercase hexadecimal rendering of a byte value. -/
def hexByte (b : Nat) : String :=
  (hexDigit (b / 16)).toString ++ (hexDigit (b % 16)).toString

/-- String escaping performed by `JSON.stringify` on each character of a
string value: quote and backslash get a backslash escape, the named control
characters get their short escapes, other control characters get a
`\u00XX` escape, and everything else is emitted verbatim. -/
def jsonEscapeChar (c : Char) : String :=
  if c = '"' then "\\\""
  else if c = '\\' then "\\\\"
  else if c = '\x08' then "\\b"
  else if c = '\t' then "\\t"
  else if c = '\n' then "\\n"
  else if c = '\x0c' then "\\f"
  else if c = '\r' then "\\r"
  else if c.toNat < 32 then "\\u00" ++ hexByte c.toNat
  else c.toString

/-- JSON string literal for a string value, as `JSON.stringify` renders it. -/
def jsonString (s : String) : String :=
  "\"" ++ String.join (s.toList.map jsonEscapeChar) ++ "\""

/-- JSON array literal for an array of strings, as `JSON.stringify` renders it. -/
def jsonStringArray (xs : List String) : String :=
  "[" ++ String.intercalate "," (xs.map jsonString) ++ "]"

/-- Rendering of `JSON.stringify(sidebarFilters)`: keys appear in the
insertion order of the object literal at JobSearchPage.tsx lines 45-53. -/
def stringifySidebar (f : SidebarFilters) : String :=
  "\x7b\"cities\":" ++ jsonStringArray f.cities ++
  ",\"jobTypes\":" ++ jsonStringArray f.jobTypes ++
  ",\"experiences\":" ++ jsonStringArray f.experiences ++
  ",\"educations\":" ++ jsonStringArray f.educations ++
  ",\"industries\":" ++ jsonStringArray f.industries ++
  ",\"workPolicies\":" ++ jsonStringArray f.workPolicies ++
  ",\"categories\":" ++ jsonStringArray f.categories ++ "\x7d"

/-- Filter-change decision of the watcher effect (JobSearchPage.tsx lines
121-125): strict inequality on the three scalar fields, and comparison of
the `JSON.stringify` renderings of the `sidebarFilters` objects. -/
def filtersChanged (cur ref : Filters) : Bool :=
  cur.keyword != ref.keyword ||
  cur.province != ref.province ||
  cur.sortBy != ref.sortBy ||
  stringifySidebar cur.sidebar != stringifySidebar ref.sidebar

/-- UTF-8 encoding of a single character, as a list of byte values. -/
def utf8Bytes (c : Char) : List Nat :=
  let n := c.toNat
  if n < 0x80 then [n]
  else if n < 0x800 then [0xC0 + n / 64, 0x80 + n % 64]
  else if n < 0x10000 then
    [0xE0 + n / 4096, 0x80 + (n / 64) % 64, 0x80 + n % 64]
  else
    [0xF0 + n / 262144, 0x80 + (n / 4096) % 64, 0x80 + (n / 64) % 64, 0x80 + n % 64]

/-- Byte values the `application/x-www-form-urlencoded` serializer leaves
unescaped: ASCII alphanumerics and `*`, `-`, `.`, `_`. -/
def urlSafeByte (b : Nat) : Bool :=
  (48 ≤ b && b ≤ 57) || (65 ≤ b && b ≤ 90) || (97 ≤ b && b ≤ 122) ||
  b = 42 || b = 45 || b = 46 || b = 95

/-- Encoding of one byte by the form-urlencoded serializer: space becomes
`+`, safe bytes pass through, everything else is percent-escaped. -/
def urlEncodeByte (b : Nat) : String :=
  if b = 32 then "+"
  else if urlSafeByte b then (Char.ofNat b).toString
  else "%" ++ hexByte b

/-- Encoding of a string component exactly as `URLSearchParams.toString()`
serializes a value (form-urlencoded over the UTF-8 bytes). -/
def urlEncode (s : String) : String :=
  String.join (s.toList.map (fun c => String.join ((utf8Bytes c).map urlEncodeByte)))

/-- Query string built by `handleFilterSearch` (lines 151-154): a
`URLSearchParams` into which `search` is set when the keyword is non-empty
and `location` is set when the province is non-empty, then serialized. -/
def urlQuery (keyword province : String) : String :=
  let parts :=
    (if keyword ≠ "" then [("search", keyword)] else []) ++
    (if province ≠ "" then [("location", province)] else [])
  String.intercalate "&" (parts.map (fun p => p.1 ++ "=" ++ urlEncode p.2))

/-- History operations of the Next.js router used by the page. -/
inductive UrlMode where
  | replace
  | push
deriving DecidableEq, Repr

/-- Router navigation record: target URL, replace-vs-push, and the
`shallow` flag (shallow means no full navigation / data refetch). -/
structure UrlAction where
  url : String
  mode : UrlMode
  shallow : Bool
deriving DecidableEq, Repr

/-- Snapshot of one `wpService.getJobs(filters, page, pageSize)` call. -/
structure GetJobsRequest where
  filters : Filters
  page : Nat
  pageSize : Nat
deriving DecidableEq, Repr

/-- Complete state of the JobSearchPage component: the React `useState`
variables, the `filtersRef` mutable ref, whether `filterData` is non-null,
the lists of in-flight (pending) `getJobs` promises of each kind, the last
router navigation, and two ghost logs (`searchLog`, `loadLog`) that record
every request ever issued.  The ghost logs and `lastUrlAction` are
specification instrumentation only: no transition reads them. -/
structure PageState where
  jobs : List Job
  searching : Bool
  loadingMore : Bool
  error : Option String
  currentPage : Nat
  hasMore : Bool
  totalJobs : Nat
  keyword : String
  selectedProvince : String
  sortBy : String
  sidebarFilters : SidebarFilters
  filtersRef : Filters
  filterData : Bool
  pendingSearches : List GetJobsRequest
  pendingLoads : List GetJobsRequest
  lastUrlAction : Option UrlAction
  searchLog : List GetJobsRequest
  loadLog : List GetJobsRequest
deriving DecidableEq, Repr

/-- Filter Set currently held in the component state (the `currentFilters`
object of the watcher effect, and the `filters` object sent to `getJobs`). -/
def currentFilters (s : PageState) : Filters :=
  ⟨s.keyword, s.selectedProvince, s.sortBy, s.sidebarFilters⟩

/-- Error message set by the catch branch of `handleFilterSearch` (line 162). -/
def searchErrorMessage : String :=
  "Gagal memuat data pekerjaan. Silakan coba lagi."

/-- Initial component state (lines 30-66): `jobs` from `initialJobs`,
`keyword`/`selectedProvince` from the URL search params, `sortBy` starts
at `newest`, the `categories` facet is seeded from the `category` param
when truthy, and `filtersRef` starts with empty keyword/province,
`newest`, and the same initial `sidebarFilters` object. -/
def initState (initialJobs : List Job) (searchParam locationParam categoryParam : String)
    (initialTotal : Nat) (fd : Bool) : PageState :=
  let sidebar0 : SidebarFilters :=
    { SidebarFilters.empty with
      categories := if categoryParam = "" then [] else [categoryParam] }
  { jobs := initialJobs
    searching := false
    loadingMore := false
    error := none
    currentPage := 1
    hasMore := true
    totalJobs := initialTotal
    keyword := searchParam
    selectedProvince := locationParam
    sortBy := "newest"
    sidebarFilters := sidebar0
    filtersRef := ⟨"", "", "newest", sidebar0⟩
    filterData := fd
    pendingSearches := []
    pendingLoads := []
    lastUrlAction := none
    searchLog := []
    loadLog := [] }

/-- Transition for `setKeyword` (keyword input onChange, line 262). -/
def setKeyword (s : PageState) (k : String) : PageState :=
  { s with keyword := k }

/-- Transition for `setSelectedProvince` (SearchableSelect onChange,
line 273): only the province state changes. -/
def setSelectedProvince (s : PageState) (p : String) : PageState :=
  { s with selectedProvince := p }

/-- Transition for `handleSidebarFilterChange` (lines 172-174): replaces
the whole `sidebarFilters` object. -/
def handleSidebarFilterChange (s : PageState) (f : SidebarFilters) : PageState :=
  { s with sidebarFilters := f }

/-- Transition for `handleSortChange` (lines 176-178). -/
def handleSortChange (s : PageState) (v : String) : PageState :=
  { s with sortBy := v }

/-- Removal of one value from a named facet array, as in the final branch
of `removeFilter` (lines 223-228); an unknown facet name leaves the
object unchanged. -/
def removeFacetValue (f : SidebarFilters) (name value : String) : SidebarFilters :=
  if name = "cities" then { f with cities := f.cities.filter (· ≠ value) }
  else if name = "jobTypes" then { f with jobTypes := f.jobTypes.filter (· ≠ value) }
  else if name = "experiences" then { f with experiences := f.experiences.filter (· ≠ value) }
  else if name = "educations" then { f with educations := f.educations.filter (· ≠ value) }
  else if name = "industries" then { f with industries := f.industries.filter (· ≠ value) }
  else if name = "workPolicies" then { f with workPolicies := f.workPolicies.filter (· ≠ value) }
  else if name = "categories" then { f with categories := f.categories.filter (· ≠ value) }
  else f

/-- Transition for `removeFilter` (lines 216-229): `keyword` clears the
keyword; `province` clears the province and also the `cities` facet; any
other type with a value removes that value from the named facet. -/
def removeFilter (s : PageState) (filterType : String) (value : Option String) : PageState :=
  if filterType = "keyword" then { s with keyword := "" }
  else if filterType = "province" then
    { s with selectedProvince := ""
             sidebarFilters := { s.sidebarFilters with cities := [] } }
  else
    match value with
    | some v => { s with sidebarFilters := removeFacetValue s.sidebarFilters filterType v }
    | none => s

/-- Transition for `clearAllFilters` (lines 190-204): resets every filter
field to its empty/default value and replaces the URL with the bare page
path (shallow). -/
def clearAllFilters (s : PageState) : PageState :=
  { s with keyword := ""
           selectedProvince := ""
           sidebarFilters := SidebarFilters.empty
           sortBy := "newest"
           lastUrlAction := some ⟨"/lowongan-kerja/", UrlMode.replace, true⟩ }

/-- Synchronous prefix of `handleFilterSearch` (lines 133-156): bails out
when `searching` is already true; otherwise sets `searching`, clears the
jobs list, resets page to 1 and `hasMore` to true, clears the error,
replaces the URL (shallow) with the keyword/province query string, and
issues `getJobs(filters, 1, 24)` (recorded as a pending search and in the
ghost log). -/
def handleFilterSearch (s : PageState) : PageState :=
  if s.searching then s
  else
    let req : GetJobsRequest := ⟨currentFilters s, 1, 24⟩
    { s with searching := true
             jobs := []
             currentPage := 1
             hasMore := true
             error := none
             lastUrlAction :=
               some ⟨"/lowongan-kerja/?" ++ urlQuery s.keyword s.selectedProvince,
                     UrlMode.replace, true⟩
             pendingSearches := s.pendingSearches ++ [req]
             searchLog := s.searchLog ++ [req] }

/-- Continuation of `handleFilterSearch` when its `getJobs` promise
resolves (lines 157-160 plus the `finally`): the response replaces the
jobs list, page, `hasMore` and `totalJobs`, and `searching` drops.  With
no pending search the event cannot occur and the state is unchanged. -/
def searchResolve (s : PageState) (r : JobsResponse) : PageState :=
  match s.pendingSearches with
  | [] => s
  | _ :: rest =>
    { s with jobs := r.jobs
             currentPage := r.currentPage
             hasMore := r.hasMore
             totalJobs := r.totalJobs
             searching := false
             pendingSearches := rest }

/-- Continuation of `handleFilterSearch` when its `getJobs` promise
rejects (lines 161-165): the error message is set and `searching` drops;
nothing else is touched. -/
def searchReject (s : PageState) : PageState :=
  match s.pendingSearches with
  | [] => s
  | _ :: rest =>
    { s with error := some searchErrorMessage
             searching := false
             pendingSearches := rest }

/-- Synchronous prefix of `loadMoreJobs` (lines 69-81): bails out when
`loadingMore` is set, `hasMore` is false, or `searching` is set;
otherwise sets `loadingMore` and issues
`getJobs(filters, currentPage + 1, 24)` (recorded as a pending load and
in the ghost log). -/
def loadMoreJobs (s : PageState) : PageState :=
  if s.loadingMore || !s.hasMore || s.searching then s
  else
    let req : GetJobsRequest := ⟨currentFilters s, s.currentPage + 1, 24⟩
    { s with loadingMore := true
             pendingLoads := s.pendingLoads ++ [req]
             loadLog := s.loadLog ++ [req] }

/-- Continuation of `loadMoreJobs` when its `getJobs` promise resolves
(lines 83-89 plus the `finally`): a non-empty `response.jobs` is appended
to the jobs list and page/`hasMore` are taken from the response; an empty
`response.jobs` only forces `hasMore := false`.  No comparison against
the current Filter Set is performed.  `loadingMore` drops either way. -/
def loadMoreResolve (s : PageState) (r : JobsResponse) : PageState :=
  match s.pendingLoads with
  | [] => s
  | _ :: rest =>
    if r.jobs.length > 0 then
      { s with jobs := s.jobs ++ r.jobs
               currentPage := r.currentPage
               hasMore := r.hasMore
               loadingMore := false
               pendingLoads := rest }
    else
      { s with hasMore := false
               loadingMore := false
               pendingLoads := rest }

/-- Continuation of `loadMoreJobs` when its `getJobs` promise rejects
(lines 90-95): `hasMore` is forced to false and `loadingMore` drops; the
jobs list and the error state are untouched. -/
def loadMoreReject (s : PageState) : PageState :=
  match s.pendingLoads with
  | [] => s
  | _ :: rest =>
    { s with hasMore := false
             loadingMore := false
             pendingLoads := rest }

/-- The filter-watching `useEffect` (lines 112-131): builds the current
Filter Set, compares it against `filtersRef` with `filtersChanged`, and
when it differs and `filterData` is non-null first overwrites
`filtersRef` with the current set and then calls `handleFilterSearch`. -/
def filtersEffect (s : PageState) : PageState :=
  if filtersChanged (currentFilters s) s.filtersRef && s.filterData then
    handleFilterSearch { s with filtersRef := currentFilters s }
  else s

/-- Transition for `handleMainSearch` (search button, lines 168-170):
delegates to `handleFilterSearch` without touching `filtersRef`. -/
def handleMainSearch (s : PageState) : PageState :=
  handleFilterSearch s

/-- Events of the component: user interactions, the watcher effect firing
after a render, the infinite-scroll sentinel invoking `loadMoreJobs`, and
the settlement of each in-flight `getJobs` promise. -/
inductive Event where
  | keywordInput (k : String)
  | provinceSelect (p : String)
  | sidebarChange (f : SidebarFilters)
  | sortChange (v : String)
  | chipRemove (filterType : String) (value : Option String)
  | clearAll
  | watchEffect
  | searchClick
  | scrollTrigger
  | searchOk (r : JobsResponse)
  | searchErr
  | loadOk (r : JobsResponse)
  | loadErr
deriving Repr

/-- Interpretation of one event as a state transition. -/
def applyEvent (s : PageState) : Event → PageState
  | .keywordInput k => setKeyword s k
  | .provinceSelect p => setSelectedProvince s p
  | .sidebarChange f => handleSidebarFilterChange s f
  | .sortChange v => handleSortChange s v
  | .chipRemove ft v => removeFilter s ft v
  | .clearAll => clearAllFilters s
  | .watchEffect => filtersEffect s
  | .searchClick => handleMainSearch s
  | .scrollTrigger => loadMoreJobs s
  | .searchOk r => searchResolve s r
  | .searchErr => searchReject s
  | .loadOk r => loadMoreResolve s r
  | .loadErr => loadMoreReject s

/-- Fold of a list of events over a state. -/
def applyEvents (s : PageState) (es : List Event) : PageState :=
  es.foldl applyEvent s

/-- States reachable from some initial mount by a sequence of events. -/
inductive Reachable : PageState → Prop where
  | init (initialJobs : List Job) (searchParam locationParam categoryParam : String)
      (initialTotal : Nat) (fd : Bool) :
      Reachable (initState initialJobs searchParam locationParam categoryParam initialTotal fd)
  | step (s : PageState) (e : Event) : Reachable s → Reachable (applyEvent s e)

/-- Events that neither settle a search promise nor deliver a loadMore
response: user interactions, effect runs, scroll triggers and loadMore
rejections. -/
def quietEvent : Event → Bool
  | .searchOk _ => false
  | .searchErr => false
  | .loadOk _ => false
  | _ => true

/-- Invariant tying the `loadingMore` flag to the in-flight loadMore
promises: with the flag down there is no pending load, and there is never
more than one pending load. -/
def loadMoreInvariant (s : PageState) : Prop :=
  (s.loadingMore = false → s.pendingLoads = []) ∧ s.pendingLoads.length ≤ 1

/-- Fixture Filter Set: everything empty, default sort. -/
def fixtureFilters : Filters := ⟨"", "", "newest", SidebarFilters.empty⟩

/-- Fixture state with one loadMore in flight for page 2. -/
def pendingLoadState : PageState :=
  { initState [⟨1⟩] "" "" "" 5 true with
    loadingMore := true
    pendingLoads := [⟨fixtureFilters, 2, 24⟩] }

/-- Fixture state with one search in flight. -/
def pendingSearchState : PageState :=
  { initState [] "" "" "" 5 true with
    searching := true
    pendingSearches := [⟨fixtureFilters, 1, 24⟩] }

/-- Fixture state whose pagination is exhausted (`hasMore` false). -/
def exhaustedState : PageState :=
  { initState [⟨1⟩] "" "" "" 1 true with hasMore := false }

/-- Fixture mount state seeded with a keyword URL parameter, so the filter
watcher sees a difference against the initial `filtersRef`. -/
def mountChangedState : PageState := initState [] "designer" "" "" 0 true

/-- Fixture run for C1: select cities A then B (search fires and
resolves), then hand the sidebar the same city set in the other order.
Afterwards the current facets are `["B","A"]` while the snapshot holds
`["A","B"]`, with no search in flight. -/
def reorderedCitiesState : PageState :=
  applyEvents (initState [] "" "" "" 0 true)
    [.sidebarChange { SidebarFilters.empty with cities := ["A", "B"] },
     .watchEffect,
     .searchOk ⟨[⟨5⟩], 1, true, 1⟩,
     .sidebarChange { SidebarFilters.empty with cities := ["B", "A"] }]

/-- Fixture mount state for the C9 scenario. -/
def scenarioState : PageState := initState [] "backend developer" "DKI Jakarta" "" 0 true

/-- Fixture run for C7: a loadMore is issued for the initial (empty)
Filter Set, then the keyword changes and the watcher starts a fresh
search, all before the loadMore response arrives. -/
def staleArrivalState : PageState :=
  applyEvents (initState [⟨1⟩] "" "" "" 50 true)
    [.scrollTrigger, .keywordInput "designer", .watchEffect]

/-- Fixture stale loadMore response carrying one job. -/
def staleResponse : JobsResponse := ⟨[⟨7⟩], 2, true, 50⟩

/-- Fixture run for C3: the keyword changes to "a" (search fires), then to
"b" while that search is still in flight, then the search resolves and
the watcher runs once more. -/
def changeDuringSearchState : PageState :=
  applyEvents (initState [] "" "" "" 0 true)
    [.keywordInput "a", .watchEffect, .keywordInput "b", .watchEffect,
     .searchOk ⟨[⟨9⟩], 1, false, 1⟩, .watchEffect]

/-- Fixture run for C5: a city is selected (search fires and resolves),
then the province select is set back to the empty value and the watcher
runs. -/
def provinceClearedState : PageState :=
  applyEvents (initState [] "" "Jawa Barat" "" 0 true)
    [.sidebarChange { SidebarFilters.empty with cities := ["Bandung"] },
     .watchEffect,
     .searchOk ⟨[⟨3⟩], 1, false, 1⟩,
     .provinceSelect "",
     .watchEffect]

/-- Fixture mount state for C6: one job showing, nothing in flight. -/
def idleMountState : PageState := initState [⟨1⟩] "" "" "" 1 true

/-- Fixture run for C6's counterexample: a loadMore is in flight when the
keyword changes and a search starts; the stale loadMore response lands,
then the search rejects. -/
def failedSearchEvents : List Event :=
  [.scrollTrigger, .keywordInput "x", .watchEffect, .loadOk ⟨[⟨7⟩], 2, true, 9⟩, .searchErr]

/-- Removal of one filter chip leaves the load/search machinery alone: it
only touches the keyword, the province and the facet arrays. -/
lemma removeFilter_machinery (s : PageState) (ft : String) (v : Option String) :
    (removeFilter s ft v).pendingLoads = s.pendingLoads ∧
    (removeFilter s ft v).loadingMore = s.loadingMore ∧
    (removeFilter s ft v).searching = s.searching ∧
    (removeFilter s ft v).jobs = s.jobs ∧
    (removeFilter s ft v).pendingSearches = s.pendingSearches := by
  unfold removeFilter
  split
  · simp
  · split
    · simp
    · cases v <;> simp

/-- With a search already in flight, `handleFilterSearch` is a no-op. -/
lemma handleFilterSearch_of_searching (s : PageState) (h : s.searching = true) :
    handleFilterSearch s = s := by
  unfold handleFilterSearch
  simp [h]

/-- With a search already in flight, `loadMoreJobs` is a no-op. -/
lemma loadMoreJobs_of_searching (s : PageState) (h : s.searching = true) :
    loadMoreJobs s = s := by
  unfold loadMoreJobs
  simp [h]

/-- With pagination exhausted, `loadMoreJobs` is a no-op. -/
lemma loadMoreJobs_of_no_more (s : PageState) (h : s.hasMore = false) :
    loadMoreJobs s = s := by
  unfold loadMoreJobs
  simp [h]

/-- Starting a search never touches the loadMore machinery. -/
lemma handleFilterSearch_loadFields (s : PageState) :
    (handleFilterSearch s).pendingLoads = s.pendingLoads ∧
    (handleFilterSearch s).loadingMore = s.loadingMore := by
  unfold handleFilterSearch
  split <;> simp

/-- Every event preserves `loadMoreInvariant`. -/
lemma loadMoreInvariant_step (s : PageState) (e : Event)
    (h : loadMoreInvariant s) : loadMoreInvariant (applyEvent s e) := by
  obtain ⟨h1, h2⟩ := h
  cases e with
  | keywordInput k => exact ⟨h1, h2⟩
  | provinceSelect p => exact ⟨h1, h2⟩
  | sidebarChange f => exact ⟨h1, h2⟩
  | sortChange v => exact ⟨h1, h2⟩
  | clearAll => exact ⟨h1, h2⟩
  | chipRemove ft v =>
    obtain ⟨hp, hl, _, _, _⟩ := removeFilter_machinery s ft v
    show loadMoreInvariant (removeFilter s ft v)
    unfold loadMoreInvariant
    rw [hp, hl]
    exact ⟨h1, h2⟩
  | watchEffect =>
    show loadMoreInvariant (filtersEffect s)
    unfold filtersEffect
    split
    · obtain ⟨hp, hl⟩ := handleFilterSearch_loadFields { s with filtersRef := currentFilters s }
      unfold loadMoreInvariant
      rw [hp, hl]
      exact ⟨h1, h2⟩
    · exact ⟨h1, h2⟩
  | searchClick =>
    obtain ⟨hp, hl⟩ := handleFilterSearch_loadFields s
    show loadMoreInvariant (handleFilterSearch s)
    unfold loadMoreInvariant
    rw [hp, hl]
    exact ⟨h1, h2⟩
  | scrollTrigger =>
    show loadMoreInvariant (loadMoreJobs s)
    unfold loadMoreJobs
    split
    · exact ⟨h1, h2⟩
    · rename_i hg
      simp only [Bool.or_eq_true, not_or, Bool.not_eq_true] at hg
      have hempty : s.pendingLoads = [] := h1 hg.1.1
      simp [loadMoreInvariant, hempty]
  | searchOk r =>
    show loadMoreInvariant (searchResolve s r)
    cases hps : s.pendingSearches with
    | nil => simpa [searchResolve, hps, loadMoreInvariant] using ⟨h1, h2⟩
    | cons a rest => simpa [searchResolve, hps, loadMoreInvariant] using ⟨h1, h2⟩
  | searchErr =>
    show loadMoreInvariant (searchReject s)
    cases hps : s.pendingSearches with
    | nil => simpa [searchReject, hps, loadMoreInvariant] using ⟨h1, h2⟩
    | cons a rest => simpa [searchReject, hps, loadMoreInvariant] using ⟨h1, h2⟩
  | loadOk r =>
    show loadMoreInvariant (loadMoreResolve s r)
    cases hps : s.pendingLoads with
    | nil => simp [loadMoreResolve, hps, loadMoreInvariant]
    | cons a rest =>
      have hrest : rest = [] := by
        rw [hps] at h2
        simpa [Nat.succ_le_succ_iff, List.length_eq_zero] using h2
      subst hrest
      by_cases hl : 0 < r.jobs.length
      · simp [loadMoreResolve, hps, hl, loadMoreInvariant]
      · simp [loadMoreResolve, hps, hl, loadMoreInvariant]
  | loadErr =>
    show loadMoreInvariant (loadMoreReject s)
    cases hps : s.pendingLoads with
    | nil => simp [loadMoreReject, hps, loadMoreInvariant]
    | cons a rest =>
      have hrest : rest = [] := by
        rw [hps] at h2
        simpa [Nat.succ_le_succ_iff, List.length_eq_zero] using h2
      subst hrest
      simp [loadMoreReject, hps, loadMoreInvariant]

/-- Every reachable state satisfies `loadMoreInvariant`. -/
lemma loadMoreInvariant_reachable (s : PageState) (h : Reachable s) :
    loadMoreInvariant s := by
  induction h with
  | init initialJobs a b c t fd => exact ⟨fun _ => rfl, Nat.zero_le 1⟩
  | step s e _ ih => exact loadMoreInvariant_step s e ih

/-- Updating only the `filtersRef` snapshot does not change the current
Filter Set. -/
lemma currentFilters_set_ref (s : PageState) (f : Filters) :
    currentFilters { s with filtersRef := f } = currentFilters s := rfl

/-- With a search in flight the watcher effect may update the snapshot but
starts nothing: the flag, the jobs list and the pending searches stay. -/
lemma filtersEffect_of_searching (s : PageState) (hs : s.searching = true) :
    (filtersEffect s).searching = true ∧ (filtersEffect s).jobs = s.jobs ∧
    (filtersEffect s).pendingSearches = s.pendingSearches := by
  unfold filtersEffect
  split
  · rw [handleFilterSearch_of_searching { s with filtersRef := currentFilters s } hs]
    exact ⟨hs, rfl, rfl⟩
  · exact ⟨hs, rfl, rfl⟩

/-- Any event that neither settles the search promise nor delivers a
loadMore response preserves "a search is in flight, the jobs list is
whatever it was, and the pending searches are untouched". -/
lemma quietEvent_preserve (s : PageState) (e : Event)
    (hq : quietEvent e = true) (hs : s.searching = true) :
    (applyEvent s e).searching = true ∧ (applyEvent s e).jobs = s.jobs ∧
    (applyEvent s e).pendingSearches = s.pendingSearches := by
  cases e with
  | keywordInput k => exact ⟨hs, rfl, rfl⟩
  | provinceSelect p => exact ⟨hs, rfl, rfl⟩
  | sidebarChange f => exact ⟨hs, rfl, rfl⟩
  | sortChange v => exact ⟨hs, rfl, rfl⟩
  | clearAll => exact ⟨hs, rfl, rfl⟩
  | chipRemove ft v =>
    obtain ⟨_, _, h3, h4, h5⟩ := removeFilter_machinery s ft v
    exact ⟨h3.trans hs, h4, h5⟩
  | watchEffect => exact filtersEffect_of_searching s hs
  | searchClick =>
    have h := handleFilterSearch_of_searching s hs
    refine ⟨?_, ?_, ?_⟩ <;> simp [applyEvent, handleMainSearch, h, hs]
  | scrollTrigger =>
    have h := loadMoreJobs_of_searching s hs
    refine ⟨?_, ?_, ?_⟩ <;> simp [applyEvent, h, hs]
  | searchOk r => simp [quietEvent] at hq
  | searchErr => simp [quietEvent] at hq
  | loadOk r => simp [quietEvent] at hq
  | loadErr =>
    cases hps : s.pendingLoads with
    | nil => refine ⟨?_, ?_, ?_⟩ <;> simp [applyEvent, loadMoreReject, hps, hs]
    | cons a rest => refine ⟨?_, ?_, ?_⟩ <;> simp [applyEvent, loadMoreReject, hps, hs]

/-- A run of quiet events started with a search in flight keeps the search
in flight and leaves the jobs list and the pending searches untouched. -/
lemma quietEvents_run (es : List Event) : ∀ s : PageState,
    es.all quietEvent = true → s.searching = true →
    (applyEvents s es).searching = true ∧ (applyEvents s es).jobs = s.jobs ∧
    (applyEvents s es).pendingSearches = s.pendingSearches := by
  induction es with
  | nil => exact fun s _ hs => ⟨hs, rfl, rfl⟩
  | cons e es ih =>
    intro s hq hs
    rw [List.all_cons, Bool.and_eq_true] at hq
    obtain ⟨p1, p2, p3⟩ := quietEvent_preserve s e hq.1 hs
    obtain ⟨r1, r2, r3⟩ := ih (applyEvent s e) hq.2 p1
    exact ⟨r1, r2.trans p2, r3.trans p3⟩

/-- C2: in every reachable state there is at most one loadMore request in
flight, and whenever `loadMoreJobs` actually issues a request (the ghost
load log grows) the state had no pending loadMore, the `loadingMore` flag
down, `hasMore` true and no search in progress. -/
theorem C2_at_most_one_inflight_loadMore (s : PageState) (h : Reachable s) :
    s.pendingLoads.length ≤ 1 ∧
    ((loadMoreJobs s).loadLog ≠ s.loadLog →
      s.pendingLoads = [] ∧ s.loadingMore = false ∧ s.hasMore = true ∧
      s.searching = false) := by
  obtain ⟨h1, h2⟩ := loadMoreInvariant_reachable s h
  refine ⟨h2, fun hlog => ?_⟩
  by_cases hg : (s.loadingMore || !s.hasMore || s.searching) = true
  · exfalso
    apply hlog
    unfold loadMoreJobs
    rw [if_pos hg]
  · cases hlm : s.loadingMore with
    | true => exact absurd (by simp [hlm]) hg
    | false =>
      cases hhm : s.hasMore with
      | false => exact absurd (by simp [hhm]) hg
      | true =>
        cases hsr : s.searching with
        | true => exact absurd (by simp [hsr]) hg
        | false => exact ⟨h1 hlm, rfl, rfl, rfl⟩

/-- Witness for C2 at a concrete initial state. -/
theorem C2_at_most_one_inflight_loadMore_witness :
    (initState [] "" "" "" 0 true).pendingLoads.length ≤ 1 :=
  (C2_at_most_one_inflight_loadMore (initState [] "" "" "" 0 true)
    (Reachable.init [] "" "" "" 0 true)).1

/-- C3 counterexample: the keyword changes from "a" to "b" while the
search for "a" is in flight; the watcher records the new Filter Set in
its snapshot but the guarded `handleFilterSearch` bails out, so no search
for keyword "b" is ever issued (the ghost search log holds only the "a"
request even after the first search resolves and the watcher runs
again). -/
theorem C3_change_during_search_counterexample :
    changeDuringSearchState.keyword = "b" ∧
    changeDuringSearchState.filterData = true ∧
    changeDuringSearchState.searching = false ∧
    changeDuringSearchState.searchLog.map (fun r => r.filters.keyword) = ["a"] ∧
    changeDuringSearchState.pendingSearches = [] := by
  decide

/-- C3 (amended): a Filter Set change detected by the watcher while
filter data is loaded and no search is in flight clears the items, resets
the page to 1 and `hasMore` to true, updates the snapshot, and issues a
fresh page-1 search; a change detected while a search is in flight leaves
items, page and the search log untouched (no new search). -/
theorem C3_filter_change_resets_and_searches (s : PageState) :
    (s.filterData = true → s.searching = false →
      filtersChanged (currentFilters s) s.filtersRef = true →
      (filtersEffect s).jobs = [] ∧ (filtersEffect s).currentPage = 1 ∧
      (filtersEffect s).hasMore = true ∧
      (filtersEffect s).filtersRef = currentFilters s ∧
      (filtersEffect s).searchLog = s.searchLog ++ [⟨currentFilters s, 1, 24⟩]) ∧
    (s.searching = true →
      (filtersEffect s).jobs = s.jobs ∧
      (filtersEffect s).currentPage = s.currentPage ∧
      (filtersEffect s).searchLog = s.searchLog) := by
  constructor
  · intro hfd hs hch
    have hcond : (filtersChanged (currentFilters s) s.filtersRef && s.filterData) = true := by
      rw [hch, hfd]; rfl
    unfold filtersEffect
    rw [if_pos hcond]
    refine ⟨?_, ?_, ?_, ?_, ?_⟩ <;> simp [handleFilterSearch, currentFilters, hs]
  · intro hs
    unfold filtersEffect
    split
    · rw [handleFilterSearch_of_searching { s with filtersRef := currentFilters s } hs]
      exact ⟨rfl, rfl, rfl⟩
    · exact ⟨rfl, rfl, rfl⟩

/-- Witness for C3: at the mount state with a seeded keyword the watcher
clears the list and resets the page; at the fixture with a search in
flight the watcher leaves the search log alone. -/
theorem C3_filter_change_resets_and_searches_witness :
    ((filtersEffect mountChangedState).jobs = [] ∧
     (filtersEffect mountChangedState).currentPage = 1) ∧
    (filtersEffect pendingSearchState).searchLog = pendingSearchState.searchLog :=
  ⟨⟨((C3_filter_change_resets_and_searches mountChangedState).1 rfl rfl (by decide)).1,
    ((C3_filter_change_resets_and_searches mountChangedState).1 rfl rfl (by decide)).2.1⟩,
   ((C3_filter_change_resets_and_searches pendingSearchState).2 rfl).2.2⟩

/-- C6 counterexample: a loadMore is in flight when the keyword changes
and a fresh search starts; the stale loadMore response lands while the
search is pending, and when the search then rejects the error banner is
shown but the displayed list is NOT empty — it shows the stale job of the
previous Filter Set. -/
theorem C6_stale_items_on_failure_counterexample :
    (applyEvents idleMountState failedSearchEvents).error = some searchErrorMessage ∧
    (applyEvents idleMountState failedSearchEvents).jobs = [⟨7⟩] := by
  decide

/-- C6 (amended): when a search started from a non-searching state fails,
and no search settlement or loadMore response arrives in between, the
user-visible error message is set and the result list is empty. -/
theorem C6_search_failure_error_and_empty (s : PageState) (es : List Event)
    (hs : s.searching = false) (hq : es.all quietEvent = true) :
    (searchReject (applyEvents (handleFilterSearch s) es)).error =
      some searchErrorMessage ∧
    (searchReject (applyEvents (handleFilterSearch s) es)).jobs = [] := by
  have h1 : (handleFilterSearch s).searching = true := by
    unfold handleFilterSearch; simp [hs]
  have h2 : (handleFilterSearch s).jobs = [] := by
    unfold handleFilterSearch; simp [hs]
  have h3 : (handleFilterSearch s).pendingSearches =
      s.pendingSearches ++ [⟨currentFilters s, 1, 24⟩] := by
    unfold handleFilterSearch; simp [hs]
  obtain ⟨r1, r2, r3⟩ := quietEvents_run es (handleFilterSearch s) hq h1
  cases hps : (applyEvents (handleFilterSearch s) es).pendingSearches with
  | nil =>
    rw [r3, h3] at hps
    exact absurd hps (by simp)
  | cons a rest =>
    constructor
    · simp [searchReject, hps]
    · rw [show (searchReject (applyEvents (handleFilterSearch s) es)).jobs =
          (applyEvents (handleFilterSearch s) es).jobs from by simp [searchReject, hps],
        r2, h2]

/-- Witness for C6: the idle mount state, a quiet interleaving consisting
of one loadMore rejection, then the search rejects. -/
theorem C6_search_failure_error_and_empty_witness :
    (searchReject (applyEvents (handleFilterSearch idleMountState) [Event.loadErr])).error =
      some searchErrorMessage ∧
    (searchReject (applyEvents (handleFilterSearch idleMountState) [Event.loadErr])).jobs = [] :=
  C6_search_failure_error_and_empty idleMountState [Event.loadErr] rfl rfl

/-- C1 counterexample: after selecting cities A,B and reordering them to
B,A, the Filter Sets differ only in the order of the `cities` facet
values, yet the watcher's comparison reports "changed" and another
search is issued (the ghost log grows from one to two requests). -/
theorem C1_order_counterexample :
    (currentFilters reorderedCitiesState).sidebar.cities = ["B", "A"] ∧
    reorderedCitiesState.filtersRef.sidebar.cities = ["A", "B"] ∧
    filtersChanged (currentFilters reorderedCitiesState) reorderedCitiesState.filtersRef = true ∧
    (filtersEffect reorderedCitiesState).searchLog.length = 2 := by
  decide

/-- C1 (amended): the filter comparison is deep/structural — any Filter
Set compares as unchanged against itself — but it is order-sensitive over
facet arrays: the sets differing only in the order of `cities` values
compare as changed and a new search is triggered. -/
theorem C1_deep_but_order_sensitive :
    (∀ f : Filters, filtersChanged f f = false) ∧
    filtersChanged (currentFilters reorderedCitiesState) reorderedCitiesState.filtersRef = true ∧
    (filtersEffect reorderedCitiesState).searchLog =
      reorderedCitiesState.searchLog ++ [⟨currentFilters reorderedCitiesState, 1, 24⟩] := by
  refine ⟨?_, by decide, by decide⟩
  intro f
  simp [filtersChanged]

/-- C4: when a loadMore promise rejects, `hasMore` drops to false, the
displayed jobs are untouched, the error state is untouched (no banner is
set), and the `loadingMore` flag drops. -/
theorem C4_loadMore_failure_fail_soft (s : PageState) (hp : s.pendingLoads ≠ []) :
    (loadMoreReject s).hasMore = false ∧ (loadMoreReject s).jobs = s.jobs ∧
    (loadMoreReject s).error = s.error ∧ (loadMoreReject s).loadingMore = false := by
  cases hps : s.pendingLoads with
  | nil => exact absurd hps hp
  | cons a rest => simp [loadMoreReject, hps]

/-- Witness for C4 at the fixture state with a pending load and no prior
error: the rejection leaves the one displayed job and the absent error
banner in place. -/
theorem C4_loadMore_failure_fail_soft_witness :
    (loadMoreReject pendingLoadState).hasMore = false ∧
    (loadMoreReject pendingLoadState).jobs = pendingLoadState.jobs ∧
    (loadMoreReject pendingLoadState).error = pendingLoadState.error ∧
    (loadMoreReject pendingLoadState).loadingMore = false :=
  C4_loadMore_failure_fail_soft pendingLoadState (by decide)

/-- C5 counterexample: with city "Bandung" selected, setting the province
back to the empty value through the select's onChange leaves the cities
facet populated. -/
theorem C5_select_clear_counterexample :
    provinceClearedState.selectedProvince = "" ∧
    provinceClearedState.sidebarFilters.cities = ["Bandung"] := by
  decide

/-- C5 (amended): `removeFilter "province"` and `clearAllFilters` clear
the province together with the cities facet, but setting the province to
the empty value directly through the select's `setSelectedProvince`
leaves the cities facet untouched. -/
theorem C5_clear_province_paths (s : PageState) :
    ((removeFilter s "province" none).selectedProvince = "" ∧
     (removeFilter s "province" none).sidebarFilters.cities = []) ∧
    ((clearAllFilters s).selectedProvince = "" ∧
     (clearAllFilters s).sidebarFilters.cities = []) ∧
    ((setSelectedProvince s "").selectedProvince = "" ∧
     (setSelectedProvince s "").sidebarFilters.cities = s.sidebarFilters.cities) := by
  refine ⟨⟨?_, ?_⟩, ⟨?_, ?_⟩, ⟨?_, ?_⟩⟩ <;>
    simp [removeFilter, clearAllFilters, setSelectedProvince, SidebarFilters.empty]

/-- C7 counterexample: the pending loadMore was issued for the initial
(empty-keyword) Filter Set, the current Filter Set now has keyword
"designer", and the arriving response is appended to the list rather
than discarded (the fresh search had cleared the list, so the appended
stale job is exactly what is displayed). -/
theorem C7_stale_appended_counterexample :
    staleArrivalState.pendingLoads.map GetJobsRequest.filters =
      [⟨"", "", "newest", SidebarFilters.empty⟩] ∧
    currentFilters staleArrivalState ≠ ⟨"", "", "newest", SidebarFilters.empty⟩ ∧
    (loadMoreResolve staleArrivalState staleResponse).jobs = [⟨7⟩] := by
  decide

/-- C7 (amended): a non-empty loadMore response is appended to the
displayed list and its page number adopted unconditionally — no
comparison between the Filter Set snapshot of the request and the
current Filter Set is performed, so stale responses are not discarded. -/
theorem C7_no_staleness_check (s : PageState) (r : JobsResponse)
    (hp : s.pendingLoads ≠ []) (hr : r.jobs ≠ []) :
    (loadMoreResolve s r).jobs = s.jobs ++ r.jobs ∧
    (loadMoreResolve s r).currentPage = r.currentPage := by
  cases hps : s.pendingLoads with
  | nil => exact absurd hps hp
  | cons a rest =>
    have hlen : 0 < r.jobs.length := List.length_pos.mpr hr
    simp [loadMoreResolve, hps, hlen]

/-- Witness for C7 at the stale-arrival fixture. -/
theorem C7_no_staleness_check_witness :
    (loadMoreResolve staleArrivalState staleResponse).jobs =
      staleArrivalState.jobs ++ staleResponse.jobs ∧
    (loadMoreResolve staleArrivalState staleResponse).currentPage =
      staleResponse.currentPage :=
  C7_no_staleness_check staleArrivalState staleResponse (by decide) (by decide)

/-- C8 counterexample: a loadMore response with a single job (fewer than
the requested page size of 24) whose `hasMore` field is true leaves the
state's `hasMore` true, so pagination continues. -/
theorem C8_short_page_counterexample :
    (JobsResponse.mk [⟨2⟩] 2 true 50).jobs.length < 24 ∧
    (loadMoreResolve pendingLoadState ⟨[⟨2⟩], 2, true, 50⟩).hasMore = true := by
  decide

/-- C8 (amended): `hasMore` becomes false when a response explicitly
signals `hasMore = false` (on either path) or when a loadMore response is
empty; a short-but-non-empty page with `hasMore = true` does not end
pagination.  While `hasMore` is false, `loadMoreJobs` issues nothing. -/
theorem C8_hasMore_false_conditions (s : PageState) (r : JobsResponse) :
    (s.pendingLoads ≠ [] → r.hasMore = false → (loadMoreResolve s r).hasMore = false) ∧
    (s.pendingLoads ≠ [] → r.jobs = [] → (loadMoreResolve s r).hasMore = false) ∧
    (s.pendingSearches ≠ [] → r.hasMore = false → (searchResolve s r).hasMore = false) ∧
    (s.hasMore = false → loadMoreJobs s = s) := by
  refine ⟨?_, ?_, ?_, fun h => loadMoreJobs_of_no_more s h⟩
  · intro hp hr
    cases hps : s.pendingLoads with
    | nil => exact absurd hps hp
    | cons a rest =>
      by_cases hl : 0 < r.jobs.length
      · simp [loadMoreResolve, hps, hl, hr]
      · simp [loadMoreResolve, hps, hl]
  · intro hp hr
    cases hps : s.pendingLoads with
    | nil => exact absurd hps hp
    | cons a rest => simp [loadMoreResolve, hps, hr]
  · intro hp hr
    cases hps : s.pendingSearches with
    | nil => exact absurd hps hp
    | cons a rest => simp [searchResolve, hps, hr]

/-- Witness for C8 at concrete inputs: an explicit `hasMore = false`
response on the loadMore path, an empty loadMore response, an explicit
`hasMore = false` response on the search path, and a scroll trigger at
an exhausted state. -/
theorem C8_hasMore_false_conditions_witness :
    (loadMoreResolve pendingLoadState ⟨[⟨2⟩], 2, false, 50⟩).hasMore = false ∧
    (loadMoreResolve pendingLoadState ⟨[], 2, true, 50⟩).hasMore = false ∧
    (searchResolve pendingSearchState ⟨[⟨2⟩], 1, false, 1⟩).hasMore = false ∧
    loadMoreJobs exhaustedState = exhaustedState :=
  ⟨(C8_hasMore_false_conditions pendingLoadState ⟨[⟨2⟩], 2, false, 50⟩).1 (by decide) rfl,
   (C8_hasMore_false_conditions pendingLoadState ⟨[], 2, true, 50⟩).2.1 (by decide) rfl,
   (C8_hasMore_false_conditions pendingSearchState ⟨[⟨2⟩], 1, false, 1⟩).2.2.1 (by decide) rfl,
   (C8_hasMore_false_conditions exhaustedState ⟨[], 1, true, 0⟩).2.2.2 rfl⟩

/-- C9: at the scenario mount state (keyword "backend developer",
province "DKI Jakarta") the watcher-triggered search replaces the URL
(shallow replace, not push) with the form-urlencoded query string, and
issues `getJobs` with page 1 and page size 24; empty keyword or province
are omitted from the query string. -/
theorem C9_url_and_fetch_scenario :
    (filtersEffect scenarioState).lastUrlAction =
      some ⟨"/lowongan-kerja/?search=backend+developer&location=DKI+Jakarta",
            UrlMode.replace, true⟩ ∧
    (filtersEffect scenarioState).searchLog =
      [⟨⟨"backend developer", "DKI Jakarta", "newest", SidebarFilters.empty⟩, 1, 24⟩] ∧
    (handleFilterSearch (initState [] "" "DKI Jakarta" "" 0 true)).lastUrlAction =
      some ⟨"/lowongan-kerja/?location=DKI+Jakarta", UrlMode.replace, true⟩ ∧
    (handleFilterSearch (initState [] "backend developer" "" "" 0 true)).lastUrlAction =
      some ⟨"/lowongan-kerja/?search=backend+developer", UrlMode.replace, true⟩ := by
  decide

/-- C10: an empty loadMore response forces `hasMore` to false while the
accumulated jobs and the page counter stay as they were — whatever the
response's own `hasMore` field says. -/
theorem C10_empty_page_terminates (s : PageState) (r : JobsResponse)
    (hp : s.pendingLoads ≠ []) (he : r.jobs = []) :
    (loadMoreResolve s r).hasMore = false ∧
    (loadMoreResolve s r).jobs = s.jobs ∧
    (loadMoreResolve s r).currentPage = s.currentPage := by
  cases hps : s.pendingLoads with
  | nil => exact absurd hps hp
  | cons a rest => simp [loadMoreResolve, hps, he]

/-- Witness for C10 at the pending-load fixture with an empty response
that itself claims `hasMore = true`. -/
theorem C10_empty_page_terminates_witness :
    (loadMoreResolve pendingLoadState ⟨[], 2, true, 99⟩).hasMore = false ∧
    (loadMoreResolve pendingLoadState ⟨[], 2, true, 99⟩).jobs = pendingLoadState.jobs ∧
    (loadMoreResolve pendingLoadState ⟨[], 2, true, 99⟩).currentPage =
      pendingLoadState.currentPage :=
  C10_empty_page_terminates pendingLoadState ⟨[], 2, true, 99⟩ (by decide) rfl

end Nexjob
